import Mathlib

/-!
Shallow embedding of the portfolio page script (src/app.js) and proofs about it.

The script has five independent behaviors: a custom cursor follower, a mobile
menu toggle, a particle network animation on a canvas, a glitch text effect,
and a scroll reveal observer.  Each is embedded below as pure functions over
explicit state.  Numeric values are modeled exactly: pixel coordinates as
integers, geometry as rationals, and the glitch counter (which the script
advances by one third per tick) as a natural number counting thirds, so that
the value of iterations at tick m is m / 3 and a comparison index < iterations
becomes 3 * index < m.  Math.sqrt is modeled by Real.sqrt; Math.random calls
are abstracted as explicit sampler arguments.
-/

namespace Portfolio

/-- A mousemove event, carrying the clientX and clientY coordinates. -/
structure MouseEvent where
  clientX : Int
  clientY : Int

/-- The string the script assigns to a style coordinate: e.clientX + "px". -/
def px (n : Int) : String := toString n ++ "px"

/-- classList.add: appends the token unless it is already present. -/
def classAdd (c : String) (l : List String) : List String :=
  if c ∈ l then l else l ++ [c]

/-- classList.remove: removes the token. -/
def classRemove (c : String) (l : List String) : List String :=
  l.filter (fun s => ! (s == c))

/-- A visual cursor marker (.cursor or .cursor-follower): its style left/top
and its class list. -/
structure Marker where
  left : String
  top : String
  classes : List String

/-- The immediate part of the mousemove handler (lines 7-8): sets the cursor
marker left/top to the event coordinates. -/
def mousemoveImmediate (e : MouseEvent) (cursor : Marker) : Marker :=
  { cursor with left := px e.clientX, top := px e.clientY }

/-- The delay in milliseconds passed to setTimeout in the mousemove handler
(line 14). -/
def setTimeoutDelayMs : Nat := 50

/-- The deferred setTimeout body of the mousemove handler (lines 11-14): sets
the follower marker left/top to the coordinates of the captured event. -/
def mousemoveDelayed (e : MouseEvent) (follower : Marker) : Marker :=
  { follower with left := px e.clientX, top := px e.clientY }

/-- The mouseenter handler on interactive elements (lines 18-20): adds the
cursor-hover class to the follower. -/
def mouseenterHandler (follower : Marker) : Marker :=
  { follower with classes := classAdd "cursor-hover" follower.classes }

/-- The mouseleave handler on interactive elements (lines 21-23): removes the
cursor-hover class from the follower. -/
def mouseleaveHandler (follower : Marker) : Marker :=
  { follower with classes := classRemove "cursor-hover" follower.classes }

/-- The state the mobile menu handlers touch: whether the nav menu class list
contains active, the transform style of bars[0] and bars[2], and the opacity
style of bars[1]. -/
structure MenuState where
  navActive : Bool
  bar0Transform : String
  bar1Opacity : String
  bar2Transform : String

/-- The crossed (hamburger open) bar configuration set on lines 36-38. -/
def crossedBars (s : MenuState) : Prop :=
  s.bar0Transform = "rotate(-45deg) translate(-5px, 6px)" ∧
  s.bar1Opacity = "0" ∧
  s.bar2Transform = "rotate(45deg) translate(-5px, -6px)"

/-- The reset bar configuration set on lines 40-42 and 50-52. -/
def resetBars (s : MenuState) : Prop :=
  s.bar0Transform = "rotate(0)" ∧
  s.bar1Opacity = "1" ∧
  s.bar2Transform = "rotate(0)"

/-- The menu toggle click handler (lines 30-44): toggles the active class,
then branches on the new class list to set the bar styles. -/
def menuToggleClick (s : MenuState) : MenuState :=
  let active := ! s.navActive
  if active then
    { navActive := active,
      bar0Transform := "rotate(-45deg) translate(-5px, 6px)",
      bar1Opacity := "0",
      bar2Transform := "rotate(45deg) translate(-5px, -6px)" }
  else
    { navActive := active,
      bar0Transform := "rotate(0)",
      bar1Opacity := "1",
      bar2Transform := "rotate(0)" }

/-- The nav-link click handler (lines 47-53): removes the active class and
resets all bar styles, regardless of the previous state. -/
def navLinkClick (_s : MenuState) : MenuState :=
  { navActive := false,
    bar0Transform := "rotate(0)",
    bar1Opacity := "1",
    bar2Transform := "rotate(0)" }

/-- The lockstep invariant of the menu: the nav menu carries active exactly
when the bars are crossed, and when active is absent the bars are reset. -/
def menuLockstep (s : MenuState) : Prop :=
  (s.navActive = true ↔ crossedBars s) ∧ (s.navActive = false → resetBars s)

/-- A particle of the neural network canvas: position, velocity and size. -/
structure Particle where
  x : ℚ
  y : ℚ
  vx : ℚ
  vy : ℚ
  size : ℚ

/-- The Particle constructor (lines 73-79), with the five Math.random results
passed explicitly. -/
def newParticle (w h r1 r2 r3 r4 r5 : ℚ) : Particle :=
  { x := r1 * w, y := r2 * h,
    vx := (r3 - 1/2) * 1, vy := (r4 - 1/2) * 1,
    size := r5 * 2 + 1 }

/-- Particle.update (lines 81-88): moves by the velocity, then negates a
velocity component when the new coordinate left the [0, width] or [0, height]
band. -/
def Particle.update (w h : ℚ) (p : Particle) : Particle :=
  let x := p.x + p.vx
  let y := p.y + p.vy
  let vx := if x < 0 ∨ x > w then -p.vx else p.vx
  let vy := if y < 0 ∨ y > h then -p.vy else p.vy
  { x := x, y := y, vx := vx, vy := vy, size := p.size }

/-- The particle count of initParticles (line 100):
Math.min(Math.floor(width / 10), 100). -/
def particleCount (w : ℚ) : Int := min ⌊w / 10⌋ 100

/-- initParticles (lines 98-104): fills the particle list with particleCount
fresh particles; the sampler rs supplies the Math.random results of the i-th
constructor call. -/
def initParticles (w h : ℚ) (rs : Nat → ℚ × ℚ × ℚ × ℚ × ℚ) : List Particle :=
  (List.range (particleCount w).toNat).map fun i =>
    newParticle w h (rs i).1 (rs i).2.1 (rs i).2.2.1 (rs i).2.2.2.1 (rs i).2.2.2.2

/-- The connection test of the inner loop (lines 116-120).  The script
computes Math.sqrt(dx * dx + dy * dy) and compares it with 150; since both
sides are nonnegative this is the comparison of the squares, which is the
executable form used here.  The theorem near_iff_distance_lt proves it
equivalent to the literal sqrt comparison. -/
def near (p p2 : Particle) : Bool :=
  decide ((p.x - p2.x) * (p.x - p2.x) + (p.y - p2.y) * (p.y - p2.y) < 150 * 150)

/-- The distance the script computes on line 118:
Math.sqrt(dx * dx + dy * dy). -/
noncomputable def distance (p p2 : Particle) : ℝ :=
  Real.sqrt (((p.x : ℝ) - (p2.x : ℝ)) * ((p.x : ℝ) - (p2.x : ℝ)) +
    ((p.y : ℝ) - (p2.y : ℝ)) * ((p.y : ℝ) - (p2.y : ℝ)))

/-- The alpha component of the strokeStyle set on line 121:
1 - distance / 150. -/
noncomputable def strokeAlpha (p p2 : Particle) : ℝ := 1 - distance p p2 / 150

/-- The inner connection loop (lines 114-128): for j from index + 1 upward,
records the index pair of every stroked line.  The first argument is the
index of the outer particle, whose updated state p is compared against the
not yet updated particles of the rest of the list. -/
def connLoop (i : Nat) (p : Particle) (j : Nat) : List Particle → List (Nat × Nat)
  | [] => []
  | q :: qs =>
    if near p q then (i, j) :: connLoop i p (j + 1) qs
    else connLoop i p (j + 1) qs

/-- The body of animate (lines 109-129) as one pass over the particle list:
each particle is updated in place and then compared against the particles
after it, which have not been updated yet in this frame.  Returns the updated
particle list and the index pairs of the stroked connection lines. -/
def animateAux (w h : ℚ) (i : Nat) : List Particle → List Particle × List (Nat × Nat)
  | [] => ([], [])
  | p :: rest =>
    let pu := Particle.update w h p
    let cs := connLoop i pu (i + 1) rest
    let r := animateAux w h (i + 1) rest
    (pu :: r.1, cs ++ r.2)

/-- One animation frame (lines 106-132) acting on the particle list. -/
def animateFrame (w h : ℚ) (ps : List Particle) : List Particle × List (Nat × Nat) :=
  animateAux w h 0 ps

/-- The filler character set of the glitch effect (line 140). -/
def chars : List Char := "!<>-_\\/[]\x7b\x7d—=+*^?#________".data

/-- The map of the glitch interval callback (lines 145-151) over the current
display characters, carrying the running character index.  At counter m the
iterations value is m / 3, so index < iterations is 3 * index < m.  A revealed
index reads originalText[index], which is undefined (None) past the end of the
target; a concealed index reads a random filler character, r giving the
scaled Math.random result of each call. -/
def glitchMapAux (orig : List Char) (r : Nat → Nat) (m : Nat) : Nat → List Char → List (Option Char)
  | _, [] => []
  | i, _ :: rest =>
    (if 3 * i < m then orig.get? i else chars.get? (r i)) :: glitchMapAux orig r m (i + 1) rest

/-- Array.prototype.join with an empty separator: undefined entries become
empty strings, so they vanish from the result. -/
def joinOpt : List (Option Char) → List Char
  | [] => []
  | some c :: rest => c :: joinOpt rest
  | none :: rest => joinOpt rest

/-- One tick of the glitch interval (lines 144-152) at counter m (iterations
being m / 3) acting on the displayed character list d. -/
def glitchTick (orig : List Char) (r : Nat → Nat) (d : List Char) (m : Nat) : List Char :=
  joinOpt (glitchMapAux orig r m 0 d)

/-- The interval loop of startGlitch (lines 142-160), run to completion with
explicit fuel: each tick rewrites the display, then the interval is cleared
once iterations is at least the target length (3 * orig.length ≤ m in
thirds); otherwise the counter advances by one third and the next tick runs.
Returns the final display and the number of ticks executed, or none if the
fuel was exhausted before the interval was cleared. -/
def runGlitchAux (orig : List Char) (r : Nat → Nat → Nat) : Nat → List Char → Nat → Option (List Char × Nat)
  | 0, _, _ => none
  | fuel + 1, d, m =>
    let d2 := glitchTick orig (r m) d m
    if 3 * orig.length ≤ m then some (d2, 1)
    else (runGlitchAux orig r fuel d2 (m + 1)).map fun t => (t.1, t.2 + 1)

/-- A full run of startGlitch from a displayed character list d, with fuel
3 * orig.length + 1, the number of ticks the exact schedule needs. -/
def runGlitch (orig : List Char) (r : Nat → Nat → Nat) (d : List Char) : Option (List Char × Nat) :=
  runGlitchAux orig r (3 * orig.length + 1) d 0

/-- An observed page section: its class list and the style fields the script
touches. -/
structure SectionEl where
  classes : List String
  opacity : String
  transform : String
  transition : String

/-- The observer threshold of line 168. -/
def observerThreshold : ℚ := 1 / 10

/-- The per-element initialization of the observe loop (lines 181-185). -/
def initSection (el : SectionEl) : SectionEl :=
  { el with opacity := "0", transform := "translateY(20px)",
            transition := "opacity 0.6s ease, transform 0.6s ease" }

/-- An IntersectionObserver entry: the observed element and whether it
intersects the viewport. -/
structure ObserverEntry where
  target : SectionEl
  isIntersecting : Bool

/-- The per-entry body of the observer callback (lines 172-178). -/
def revealEntry (en : ObserverEntry) : SectionEl :=
  if en.isIntersecting then
    { classes := classAdd "visible" en.target.classes,
      opacity := "1", transform := "translateY(0)",
      transition := en.target.transition }
  else en.target

/-- The observer callback (lines 171-179) over a batch of entries. -/
def observerCallback (entries : List ObserverEntry) : List SectionEl :=
  entries.map revealEntry

/-- The six nullable DOM lookups of the script: querySelector and
getElementById return null (none) when no element matches. -/
structure Page where
  cursor : Option Unit
  follower : Option Unit
  menuToggle : Option Unit
  navMenu : Option Unit
  canvas : Option Unit
  glitchText : Option Unit

/-- The top-level initialization run of the script, keeping only the nullable
dereferences it performs, in source order: menuToggle.addEventListener on
line 30, canvas.getContext on line 57, glitchText.getAttribute on line 139.
The cursor, follower and navMenu lookups are stored but only dereferenced
inside event handlers, so a null value for them does not stop this run. -/
def initScript (p : Page) : Option Unit := do
  let _ ← p.menuToggle
  let _ ← p.canvas
  let _ ← p.glitchText
  pure ()

/-- The nullable dereferences of one mousemove delivery: cursor.style on
lines 7-8 and follower.style in the timeout body on lines 12-13. -/
def mousemoveRun (p : Page) : Option Unit := do
  let _ ← p.cursor
  let _ ← p.follower
  pure ()

/-- The nullable dereference of one menu toggle click: navMenu.classList on
lines 31 and 35. -/
def menuClickRun (p : Page) : Option Unit := do
  let _ ← p.navMenu
  pure ()

theorem mem_classAdd_self (c : String) (l : List String) : c ∈ classAdd c l := by
  unfold classAdd
  split
  · assumption
  · exact List.mem_append_right l (List.mem_singleton_self c)

theorem not_mem_classRemove_self (c : String) (l : List String) : c ∉ classRemove c l := by
  simp [classRemove, List.mem_filter]

/-- C4: after any click on the menu toggle or on any navigation link, the nav
menu carries the active class exactly when the three bars are in the crossed
configuration, and when active is absent all three bars are reset. -/
theorem claim_C4 (s : MenuState) :
    menuLockstep (menuToggleClick s) ∧ menuLockstep (navLinkClick s) := by
  cases hs : s.navActive <;>
    simp [menuToggleClick, navLinkClick, menuLockstep, crossedBars, resetBars, hs]

theorem claim_C4_witness :
    menuLockstep (menuToggleClick (MenuState.mk false "a" "b" "c")) ∧
    menuLockstep (navLinkClick (MenuState.mk false "a" "b" "c")) :=
  claim_C4 (MenuState.mk false "a" "b" "c")

/-- C7: the mousemove handler sets the instant cursor marker to the event
coordinates immediately, and the deferred setTimeout body, delayed by 50
milliseconds, sets the follower to the same coordinates of that event;
mouseenter on an interactive element adds the cursor-hover class to the
follower and mouseleave removes it. -/
theorem claim_C7 (e : MouseEvent) (c f g k : Marker) :
    (mousemoveImmediate e c).left = px e.clientX ∧
    (mousemoveImmediate e c).top = px e.clientY ∧
    setTimeoutDelayMs = 50 ∧
    (mousemoveDelayed e f).left = px e.clientX ∧
    (mousemoveDelayed e f).top = px e.clientY ∧
    "cursor-hover" ∈ (mouseenterHandler g).classes ∧
    "cursor-hover" ∉ (mouseleaveHandler k).classes :=
  ⟨rfl, rfl, rfl, rfl, rfl, mem_classAdd_self _ _, not_mem_classRemove_self _ _⟩

theorem claim_C7_witness :
    (mousemoveImmediate (MouseEvent.mk 3 4) (Marker.mk "" "" [])).left = px 3 ∧
    (mousemoveImmediate (MouseEvent.mk 3 4) (Marker.mk "" "" [])).top = px 4 ∧
    setTimeoutDelayMs = 50 ∧
    (mousemoveDelayed (MouseEvent.mk 3 4) (Marker.mk "" "" [])).left = px 3 ∧
    (mousemoveDelayed (MouseEvent.mk 3 4) (Marker.mk "" "" [])).top = px 4 ∧
    "cursor-hover" ∈ (mouseenterHandler (Marker.mk "" "" [])).classes ∧
    "cursor-hover" ∉ (mouseleaveHandler (Marker.mk "" "" [])).classes :=
  claim_C7 (MouseEvent.mk 3 4) (Marker.mk "" "" []) (Marker.mk "" "" [])
    (Marker.mk "" "" []) (Marker.mk "" "" [])

/-- C6: the observer threshold is 0.1; at initialization every observed
section is set to opacity 0 and transform translateY(20px), and when an entry
for it reports intersection the callback gives it the visible class, opacity
1 and transform translateY(0). -/
theorem claim_C6 (el : SectionEl) (en : ObserverEntry) :
    observerThreshold = 1 / 10 ∧
    (initSection el).opacity = "0" ∧
    (initSection el).transform = "translateY(20px)" ∧
    (en.isIntersecting = true →
      "visible" ∈ (revealEntry en).classes ∧
      (revealEntry en).opacity = "1" ∧
      (revealEntry en).transform = "translateY(0)") := by
  refine ⟨rfl, rfl, rfl, fun hi => ?_⟩
  simp [revealEntry, hi, mem_classAdd_self]

theorem claim_C6_witness :
    (ObserverEntry.mk (SectionEl.mk [] "o" "t" "tr") true).isIntersecting = true ∧
    ("visible" ∈ (revealEntry (ObserverEntry.mk (SectionEl.mk [] "o" "t" "tr") true)).classes ∧
     (revealEntry (ObserverEntry.mk (SectionEl.mk [] "o" "t" "tr") true)).opacity = "1" ∧
     (revealEntry (ObserverEntry.mk (SectionEl.mk [] "o" "t" "tr") true)).transform = "translateY(0)") :=
  ⟨rfl, (claim_C6 (SectionEl.mk [] "o" "t" "tr")
    (ObserverEntry.mk (SectionEl.mk [] "o" "t" "tr") true)).2.2.2 rfl⟩

/-- C10: Particle.update preserves the magnitude of both velocity components
and the size; the sign of vx flips exactly when the updated x lies outside
the band from 0 to width, and likewise for vy with the height band. -/
theorem claim_C10 (w h : ℚ) (p : Particle) :
    |(Particle.update w h p).vx| = |p.vx| ∧
    |(Particle.update w h p).vy| = |p.vy| ∧
    (Particle.update w h p).size = p.size ∧
    (((Particle.update w h p).x < 0 ∨ (Particle.update w h p).x > w) →
      (Particle.update w h p).vx = -p.vx) ∧
    (¬((Particle.update w h p).x < 0 ∨ (Particle.update w h p).x > w) →
      (Particle.update w h p).vx = p.vx) ∧
    (((Particle.update w h p).y < 0 ∨ (Particle.update w h p).y > h) →
      (Particle.update w h p).vy = -p.vy) ∧
    (¬((Particle.update w h p).y < 0 ∨ (Particle.update w h p).y > h) →
      (Particle.update w h p).vy = p.vy) := by
  have hx : (Particle.update w h p).x = p.x + p.vx := rfl
  have hy : (Particle.update w h p).y = p.y + p.vy := rfl
  have hvx : (Particle.update w h p).vx =
      if p.x + p.vx < 0 ∨ p.x + p.vx > w then -p.vx else p.vx := rfl
  have hvy : (Particle.update w h p).vy =
      if p.y + p.vy < 0 ∨ p.y + p.vy > h then -p.vy else p.vy := rfl
  refine ⟨?_, ?_, rfl, fun hc => ?_, fun hc => ?_, fun hc => ?_, fun hc => ?_⟩
  · rw [hvx]; split_ifs <;> simp [abs_neg]
  · rw [hvy]; split_ifs <;> simp [abs_neg]
  · rw [hvx, if_pos (hx ▸ hc)]
  · rw [hvx, if_neg (hx ▸ hc)]
  · rw [hvy, if_pos (hy ▸ hc)]
  · rw [hvy, if_neg (hy ▸ hc)]

theorem claim_C10_witness :
    (Particle.update 10 10 (Particle.mk 1 2 3 4 5)).size = (Particle.mk 1 2 3 4 5).size :=
  (claim_C10 10 10 (Particle.mk 1 2 3 4 5)).2.2.1

theorem animateAux_fst_length (w h : ℚ) :
    ∀ (i : Nat) (ps : List Particle), (animateAux w h i ps).1.length = ps.length := by
  intro i ps
  induction ps generalizing i with
  | nil => rfl
  | cons p rest ih => simp [animateAux, ih]

/-- C2: immediately after initParticles the particle list has length
min(floor(width / 10), 100), hence at most 100, and an animate frame leaves
the length of the particle list unchanged. -/
theorem claim_C2 (w h : ℚ) (rs : Nat → ℚ × ℚ × ℚ × ℚ × ℚ) (ps : List Particle)
    (hw : 0 ≤ w) :
    (initParticles w h rs).length = min (⌊w / 10⌋).toNat 100 ∧
    (initParticles w h rs).length ≤ 100 ∧
    (animateFrame w h ps).1.length = ps.length := by
  have hlen : (initParticles w h rs).length = (particleCount w).toNat := by
    simp [initParticles]
  have h0 : (0 : ℤ) ≤ ⌊w / 10⌋ :=
    Int.floor_nonneg.mpr (div_nonneg hw (by norm_num))
  have hmin : (particleCount w).toNat = min (⌊w / 10⌋).toNat 100 := by
    unfold particleCount
    rw [min_def, min_def]
    split_ifs <;> omega
  refine ⟨by rw [hlen, hmin], ?_, animateAux_fst_length w h 0 ps⟩
  rw [hlen, hmin]
  omega

theorem claim_C2_witness :
    (0 : ℚ) ≤ 50 ∧
    ((initParticles 50 60 (fun _ => (0, 0, 0, 0, 0))).length = min (⌊(50 : ℚ) / 10⌋).toNat 100 ∧
     (initParticles 50 60 (fun _ => (0, 0, 0, 0, 0))).length ≤ 100 ∧
     (animateFrame 50 60 []).1.length = ([] : List Particle).length) :=
  ⟨by norm_num, claim_C2 50 60 (fun _ => (0, 0, 0, 0, 0)) [] (by norm_num)⟩

/-- C8 counterexample: a page on which the .cursor lookup yields null but the
three lookups the top-level script dereferences succeed; initialization runs
to completion, so a null lookup does not always make initialization fail. -/
theorem claim_C8_counterexample :
    (Page.mk none (some ()) (some ()) (some ()) (some ()) (some ())).cursor = none ∧
    initScript (Page.mk none (some ()) (some ()) (some ()) (some ()) (some ())) = some () :=
  ⟨rfl, rfl⟩

/-- C8 amended: no lookup is null-checked and there is no error-handling
branch, but only a null mobile-menu, neural-canvas or glitch-effect lookup
makes the top-level initialization fail; a null cursor or follower instead
makes the mousemove delivery fail, and a null nav-menu makes the menu click
handler fail, at their first invocation. -/
theorem claim_C8_amended (p : Page) :
    (initScript p = none ↔ (p.menuToggle = none ∨ p.canvas = none ∨ p.glitchText = none)) ∧
    (mousemoveRun p = none ↔ (p.cursor = none ∨ p.follower = none)) ∧
    (menuClickRun p = none ↔ p.navMenu = none) := by
  obtain ⟨c, f, mt, nm, cv, gt⟩ := p
  cases c <;> cases f <;> cases mt <;> cases nm <;> cases cv <;> cases gt <;>
    simp [initScript, mousemoveRun, menuClickRun]

theorem near_iff_distance_lt (p q : Particle) : near p q = true ↔ distance p q < 150 := by
  unfold near distance
  rw [Real.sqrt_lt' (by norm_num : (0 : ℝ) < 150),
    show ((150 : ℝ) ^ 2) = ((150 * 150 : ℚ) : ℝ) from by norm_num, decide_eq_true_eq]
  constructor <;> intro hlt <;> exact_mod_cast hlt

theorem connLoop_mem (p : Particle) :
    ∀ (rest : List Particle) (j a b i : Nat),
      ((a, b) ∈ connLoop i p j rest ↔
        a = i ∧ j ≤ b ∧ ∃ q, rest.get? (b - j) = some q ∧ near p q = true) := by
  intro rest
  induction rest with
  | nil =>
    intro j a b i
    simp [connLoop]
  | cons q qs ih =>
    intro j a b i
    by_cases hn : near p q = true
    · simp only [connLoop, if_pos hn]
      constructor
      · intro hmem
        rcases List.mem_cons.mp hmem with heq | hrec
        · obtain ⟨ha, hb⟩ := Prod.mk.injEq a b i j ▸ heq
          subst ha; subst hb
          exact ⟨rfl, le_refl _, q, by simp, hn⟩
        · obtain ⟨ha, hjb, q2, hget, hnear⟩ := (ih (j + 1) a b i).mp hrec
          refine ⟨ha, by omega, q2, ?_, hnear⟩
          have hsub : b - j = (b - (j + 1)) + 1 := by omega
          rw [hsub, List.get?_cons_succ]
          exact hget
      · rintro ⟨ha, hjb, q2, hget, hnear⟩
        subst ha
        rcases Nat.eq_or_lt_of_le hjb with heq | hlt
        · have hbj : b - j = 0 := by omega
          rw [hbj, List.get?_cons_zero] at hget
          injection hget with hq2
          subst heq
          exact List.mem_cons_self _ _
        · apply List.mem_cons_of_mem
          apply (ih (j + 1) a b a).mpr
          refine ⟨rfl, by omega, q2, ?_, hnear⟩
          have hsub : b - j = (b - (j + 1)) + 1 := by omega
          rw [hsub, List.get?_cons_succ] at hget
          exact hget
    · simp only [connLoop, if_neg hn]
      rw [ih (j + 1) a b i]
      constructor
      · rintro ⟨ha, hjb, q2, hget, hnear⟩
        refine ⟨ha, by omega, q2, ?_, hnear⟩
        have hsub : b - j = (b - (j + 1)) + 1 := by omega
        rw [hsub, List.get?_cons_succ]
        exact hget
      · rintro ⟨ha, hjb, q2, hget, hnear⟩
        rcases Nat.eq_or_lt_of_le hjb with heq | hlt
        · exfalso
          have hbj : b - j = 0 := by omega
          rw [hbj, List.get?_cons_zero] at hget
          injection hget with hq2
          exact hn (hq2 ▸ hnear)
        · refine ⟨ha, by omega, q2, ?_, hnear⟩
          have hsub : b - j = (b - (j + 1)) + 1 := by omega
          rw [hsub, List.get?_cons_succ] at hget
          exact hget

theorem animateAux_snd_mem (w h : ℚ) :
    ∀ (ps : List Particle) (i a b : Nat),
      ((a, b) ∈ (animateAux w h i ps).2 ↔
        i ≤ a ∧ a < b ∧ ∃ p q, ps.get? (a - i) = some p ∧ ps.get? (b - i) = some q ∧
          near (Particle.update w h p) q = true) := by
  intro ps
  induction ps with
  | nil =>
    intro i a b
    simp [animateAux]
  | cons p rest ih =>
    intro i a b
    simp only [animateAux, List.mem_append]
    rw [connLoop_mem, ih (i + 1) a b]
    constructor
    · rintro (⟨ha, hjb, q, hget, hnear⟩ | ⟨hia, hab, p2, q2, hga, hgb, hnear⟩)
      · subst ha
        refine ⟨le_refl a, by omega, p, q, ?_, ?_, hnear⟩
        · rw [Nat.sub_self, List.get?_cons_zero]
        · have hsub : b - a = (b - (a + 1)) + 1 := by omega
          rw [hsub, List.get?_cons_succ]
          exact hget
      · refine ⟨by omega, hab, p2, q2, ?_, ?_, hnear⟩
        · have hsub : a - i = (a - (i + 1)) + 1 := by omega
          rw [hsub, List.get?_cons_succ]
          exact hga
        · have hsub : b - i = (b - (i + 1)) + 1 := by omega
          rw [hsub, List.get?_cons_succ]
          exact hgb
    · rintro ⟨hia, hab, p2, q2, hga, hgb, hnear⟩
      rcases Nat.eq_or_lt_of_le hia with heq | hlt
      · left
        subst heq
        rw [Nat.sub_self, List.get?_cons_zero] at hga
        injection hga with hp2
        refine ⟨rfl, by omega, q2, ?_, hp2 ▸ hnear⟩
        have hsub : b - i = (b - (i + 1)) + 1 := by omega
        rw [hsub, List.get?_cons_succ] at hgb
        exact hgb
      · right
        refine ⟨by omega, hab, p2, q2, ?_, ?_, hnear⟩
        · have hsub : a - i = (a - (i + 1)) + 1 := by omega
          rw [hsub, List.get?_cons_succ] at hga
          exact hga
        · have hsub : b - i = (b - (i + 1)) + 1 := by omega
          rw [hsub, List.get?_cons_succ] at hgb
          exact hgb

/-- C3: in an animation frame a connecting line for the pair of particles at
positions i and j (i before j) is stroked exactly when the distance the
script computes between them at that moment, namely Math.sqrt of the squared
coordinate differences of the updated particle i against the not yet updated
particle j, is strictly below 150, and the stroke alpha is
1 - distance / 150. -/
theorem claim_C3 (w h : ℚ) (ps : List Particle) (i j : Nat) :
    ((i, j) ∈ (animateFrame w h ps).2 ↔
      i < j ∧ ∃ p q, ps.get? i = some p ∧ ps.get? j = some q ∧
        distance (Particle.update w h p) q < 150) ∧
    (∀ p q : Particle, strokeAlpha p q = 1 - distance p q / 150) := by
  constructor
  · rw [animateFrame, animateAux_snd_mem w h ps 0 i j]
    simp only [Nat.sub_zero, Nat.zero_le, true_and]
    constructor
    · rintro ⟨hij, p, q, hgi, hgj, hnear⟩
      exact ⟨hij, p, q, hgi, hgj, (near_iff_distance_lt _ _).mp hnear⟩
    · rintro ⟨hij, p, q, hgi, hgj, hd⟩
      exact ⟨hij, p, q, hgi, hgj, (near_iff_distance_lt _ _).mpr hd⟩
  · intro p q
    rfl

theorem glitchMapAux_head_some (orig : List Char) (r : Nat → Nat) (m i : Nat)
    (hm : m ≤ 3 * orig.length) (hr : ∀ n, r n < chars.length) :
    ∃ c0, (if 3 * i < m then orig.get? i else chars.get? (r i)) = some c0 := by
  by_cases h3 : 3 * i < m
  · rw [if_pos h3]
    have hi : i < orig.length := by omega
    exact ⟨orig.get ⟨i, hi⟩, List.get?_eq_get hi⟩
  · rw [if_neg h3]
    exact ⟨chars.get ⟨r i, hr i⟩, List.get?_eq_get (hr i)⟩

theorem glitchMapAux_length (orig : List Char) (r : Nat → Nat) (m : Nat)
    (hm : m ≤ 3 * orig.length) (hr : ∀ n, r n < chars.length) :
    ∀ (d : List Char) (i : Nat), (joinOpt (glitchMapAux orig r m i d)).length = d.length := by
  intro d
  induction d with
  | nil => intro i; rfl
  | cons c rest ih =>
    intro i
    obtain ⟨c0, hc0⟩ := glitchMapAux_head_some orig r m i hm hr
    simp only [glitchMapAux, hc0, joinOpt, List.length_cons, ih (i + 1)]

theorem glitchMapAux_get (orig : List Char) (r : Nat → Nat) (m : Nat)
    (hm : m ≤ 3 * orig.length) (hr : ∀ n, r n < chars.length) :
    ∀ (d : List Char) (i t : Nat), t < d.length →
      (joinOpt (glitchMapAux orig r m i d)).get? t =
        if 3 * (i + t) < m then orig.get? (i + t) else chars.get? (r (i + t)) := by
  intro d
  induction d with
  | nil =>
    intro i t ht
    simp at ht
  | cons c rest ih =>
    intro i t ht
    obtain ⟨c0, hc0⟩ := glitchMapAux_head_some orig r m i hm hr
    simp only [glitchMapAux, hc0, joinOpt]
    cases t with
    | zero =>
      rw [List.get?_cons_zero, Nat.add_zero]
      exact hc0.symm
    | succ t2 =>
      rw [List.get?_cons_succ]
      have hlen : t2 < rest.length := by
        simp only [List.length_cons] at ht
        omega
      rw [ih (i + 1) t2 hlen]
      have hidx : i + (t2 + 1) = (i + 1) + t2 := by omega
      rw [hidx]

/-- C9: every tick of the glitch interval maps the current display character
by character and, within the schedule of a run (counter at most three times
the target length, each random draw in range), every mapped entry is a real
character, so the length of the displayed string is preserved regardless of
the length of the data-text target. -/
theorem claim_C9 (orig : List Char) (r : Nat → Nat) (d : List Char) (m : Nat)
    (hm : m ≤ 3 * orig.length) (hr : ∀ n, r n < chars.length) :
    (glitchTick orig r d m).length = d.length :=
  glitchMapAux_length orig r m hm hr d 0

theorem claim_C9_witness :
    (2 ≤ 3 * "AB".data.length ∧ (∀ n : Nat, (fun _ : Nat => 0) n < chars.length)) ∧
    (glitchTick "AB".data (fun _ => 0) "XYZ".data 2).length = "XYZ".data.length :=
  ⟨⟨by decide, by intro n; show 0 < chars.length; decide⟩,
    claim_C9 "AB".data (fun _ => 0) "XYZ".data 2 (by decide) (by intro n; show 0 < chars.length; decide)⟩

/-- C5: at a tick of the glitch interval with counter m (iterations m / 3),
every displayed character at an index below iterations equals the
corresponding character of the data-text target, and every character at an
index at or above iterations is drawn from the filler character set. -/
theorem claim_C5 (orig : List Char) (r : Nat → Nat) (d : List Char) (m i : Nat)
    (hm : m ≤ 3 * orig.length) (hr : ∀ n, r n < chars.length) (hi : i < d.length) :
    (3 * i < m → (glitchTick orig r d m).get? i = orig.get? i) ∧
    (m ≤ 3 * i → ∃ c, c ∈ chars ∧ (glitchTick orig r d m).get? i = some c) := by
  have hg := glitchMapAux_get orig r m hm hr d 0 i hi
  rw [Nat.zero_add] at hg
  constructor
  · intro h3
    rw [glitchTick, hg, if_pos h3]
  · intro h3
    rw [glitchTick, hg, if_neg (by omega)]
    exact ⟨chars.get ⟨r i, hr i⟩, List.get_mem chars (r i) (hr i), List.get?_eq_get (hr i)⟩

theorem claim_C5_witness :
    (3 ≤ 3 * "HI".data.length ∧ (0 : Nat) < "##".data.length) ∧
    ((3 * 0 < 3 → (glitchTick "HI".data (fun _ => 0) "##".data 3).get? 0 = "HI".data.get? 0) ∧
     (3 ≤ 3 * 0 → ∃ c, c ∈ chars ∧ (glitchTick "HI".data (fun _ => 0) "##".data 3).get? 0 = some c)) :=
  ⟨⟨by decide, by decide⟩,
    claim_C5 "HI".data (fun _ => 0) "##".data 3 0 (by decide) (by intro n; show 0 < chars.length; decide) (by decide)⟩

theorem glitchMapAux_final (orig : List Char) (r : Nat → Nat) :
    ∀ (d : List Char) (i : Nat), i + d.length ≤ orig.length →
      joinOpt (glitchMapAux orig r (3 * orig.length) i d) = (orig.drop i).take d.length := by
  intro d
  induction d with
  | nil =>
    intro i hle
    simp [glitchMapAux, joinOpt]
  | cons c rest ih =>
    intro i hle
    simp only [List.length_cons] at hle
    have hi : i < orig.length := by omega
    have h3 : 3 * i < 3 * orig.length := by omega
    simp only [glitchMapAux, if_pos h3, List.get?_eq_get hi, joinOpt, List.length_cons]
    rw [ih (i + 1) (by omega)]
    rw [List.drop_eq_getElem_cons hi, List.take_succ_cons]
    simp [List.get_eq_getElem]

theorem glitchTick_final (orig : List Char) (r : Nat → Nat) (d : List Char)
    (hd : d.length = orig.length) : glitchTick orig r d (3 * orig.length) = orig := by
  rw [glitchTick, glitchMapAux_final orig r d 0 (by omega), List.drop_zero, hd,
    List.take_length]

theorem runGlitchAux_succ (orig : List Char) (r : Nat → Nat → Nat) (fuel : Nat)
    (d : List Char) (m : Nat) :
    runGlitchAux orig r (fuel + 1) d m =
      if 3 * orig.length ≤ m then some (glitchTick orig (r m) d m, 1)
      else (runGlitchAux orig r fuel (glitchTick orig (r m) d m) (m + 1)).map
        fun t => (t.1, t.2 + 1) := rfl

theorem runGlitchAux_spec (orig : List Char) (r : Nat → Nat → Nat)
    (hr : ∀ t n, r t n < chars.length) :
    ∀ (k m : Nat) (d : List Char), m + k = 3 * orig.length → d.length = orig.length →
      runGlitchAux orig r (k + 1) d m = some (orig, k + 1) := by
  intro k
  induction k with
  | zero =>
    intro m d hm hd
    have hm3 : m = 3 * orig.length := by omega
    subst hm3
    rw [runGlitchAux_succ, if_pos (le_refl (3 * orig.length))]
    rw [glitchTick_final orig (r (3 * orig.length)) d hd]
  | succ k2 ih =>
    intro m d hm hd
    have hnot : ¬ (3 * orig.length ≤ m) := by omega
    rw [runGlitchAux_succ, if_neg hnot]
    have hd2 : (glitchTick orig (r m) d m).length = orig.length := by
      rw [glitchTick, glitchMapAux_length orig (r m) m (by omega) (hr m) d 0]
      exact hd
    rw [ih (m + 1) _ (by omega) hd2]
    rfl

/-- C1: a run of startGlitch terminates: on the exact schedule where
iterations grows by one third per tick, the interval is cleared at the tick
where iterations reaches the target length, after 3 * length + 1 ticks in
total, and the display at that final tick equals the data-text target. -/
theorem claim_C1 (orig : List Char) (r : Nat → Nat → Nat) (d : List Char)
    (hr : ∀ t n, r t n < chars.length) (hd : d.length = orig.length) :
    runGlitch orig r d = some (orig, 3 * orig.length + 1) := by
  rw [runGlitch]
  exact runGlitchAux_spec orig r hr (3 * orig.length) 0 d (by omega) hd

theorem claim_C1_witness :
    ((∀ t n : Nat, (fun _ _ : Nat => 0) t n < chars.length) ∧
      "AB".data.length = "AB".data.length) ∧
    runGlitch "AB".data (fun _ _ => 0) "AB".data = some ("AB".data, 3 * "AB".data.length + 1) :=
  ⟨⟨by intro t n; show 0 < chars.length; decide, rfl⟩,
    claim_C1 "AB".data (fun _ _ => 0) "AB".data (by intro t n; show 0 < chars.length; decide) rfl⟩

end Portfolio
